import Mathlib

/-!
Shallow embedding of `src/main.py` (a command-line news assistant that routes
user requests to sentiment analysis, news search + summary, or general Q&A).

External collaborators (the LLM completion API and the web-search API) are
modelled as explicit function parameters; the token-usage callback state is
threaded explicitly.  Python strings are modelled as Lean `String`s, with
helper functions (`pyLower`, `pyContains`, `pyReplace`, `pyStrip`) that mirror
the Python `str` operations used by the source (`lower`, `in`, `replace`,
`strip`, `startswith`).
-/

namespace NewsAgent

/-! ## Python string operations -/

/-- Python `str.lower()` restricted to the character ranges that occur in the
program: ASCII plus the Latin-1 uppercase letters (covering `Í` in
`"NOTÍCIAS"`, etc.).  Both ranges lower by adding 32, as Python does. -/
def pyLowerChar (c : Char) : Char :=
  if 'A' ≤ c ∧ c ≤ 'Z' then Char.ofNat (c.toNat + 32)
  else if 'À' ≤ c ∧ c ≤ 'Þ' ∧ c ≠ '×' then Char.ofNat (c.toNat + 32)
  else c

/-- Python `s.lower()`. -/
def pyLower (s : String) : String := ⟨s.data.map pyLowerChar⟩

/-- Auxiliary for `pyContains`: does `pat` occur as a contiguous sublist? -/
def containsAux (pat : List Char) : List Char → Bool
  | [] => pat.isEmpty
  | c :: t => pat.isPrefixOf (c :: t) || containsAux pat t

/-- Python `pat in s` (substring containment). -/
def pyContains (s pat : String) : Bool := containsAux pat.data s.data

/-- Python `s.startswith(pat)`. -/
def pyStartsWith (s pat : String) : Bool := pat.data.isPrefixOf s.data

/-- Auxiliary for `pyReplace`: left-to-right non-overlapping replacement of a
non-empty pattern, driven by a fuel argument (any fuel `≥` the list length
gives the full replacement; every source call site uses a non-empty pattern). -/
def replaceAux (pat rep : List Char) : Nat → List Char → List Char
  | 0, s => s
  | _ + 1, [] => []
  | fuel + 1, c :: t =>
    if pat ≠ [] ∧ pat.isPrefixOf (c :: t) then
      rep ++ replaceAux pat rep fuel (List.drop pat.length (c :: t))
    else c :: replaceAux pat rep fuel t

/-- Python `s.replace(pat, rep)` (all occurrences, scanned left to right). -/
def pyReplace (s pat rep : String) : String :=
  ⟨replaceAux pat.data rep.data s.data.length s.data⟩

/-- Python whitespace for `str.strip()` (ASCII part, which is all that the
program's inputs and templates use). -/
def isPySpace (c : Char) : Bool :=
  c = ' ' || c = '\t' || c = '\n' || c = '\r' || c = '\x0b' || c = '\x0c'

/-- Python `s.strip()`. -/
def pyStrip (s : String) : String :=
  ⟨((s.data.dropWhile isPySpace).reverse.dropWhile isPySpace).reverse⟩

/-! ## Data model -/

/-- One record returned by the Search Collaborator (a Python dict with
possibly-missing keys, read with `.get(key, default)`). -/
structure SearchResult where
  title : Option String
  content : Option String
  url : Option String
deriving DecidableEq

/-- The `token_usage` dict inside an LLM response (`main.py` line 18);
individual fields may be absent (`.get(field, 0)`). -/
structure TokenUsageDict where
  prompt_tokens : Option Int
  completion_tokens : Option Int
  total_tokens : Option Int
deriving DecidableEq

/-- The `llm_output` attribute of an LLM response; `token_usage` may be
absent (`.get('token_usage', {})`). -/
structure LLMOutput where
  token_usage : Option TokenUsageDict
deriving DecidableEq

/-- An LLM completion response: generated `content` plus optional usage
metadata.  `llm_output = none` models a missing, `None` or empty
`llm_output` attribute (all of which fail the truthiness test on line 17). -/
structure LLMResponse where
  content : String
  llm_output : Option LLMOutput
deriving DecidableEq

/-- The mutable accumulator state of `TokenCounterCallback`
(`main.py` lines 10-14). -/
structure TokenCounterCallback where
  total_tokens : Int
  prompt_tokens : Int
  completion_tokens : Int
deriving DecidableEq

/-- Fresh counter: all fields zero (`__init__`, lines 11-14). -/
def TokenCounterCallback.init : TokenCounterCallback := ⟨0, 0, 0⟩

/-- `TokenCounterCallback.on_llm_end` (lines 16-21): if usage metadata is
present, add each (possibly missing, default 0) field into the running
totals; otherwise leave the state unchanged. -/
def TokenCounterCallback.on_llm_end (self : TokenCounterCallback)
    (response : LLMResponse) : TokenCounterCallback :=
  match response.llm_output with
  | none => self
  | some out =>
    let token_usage := out.token_usage.getD ⟨none, none, none⟩
    { prompt_tokens := self.prompt_tokens + token_usage.prompt_tokens.getD 0
      completion_tokens := self.completion_tokens + token_usage.completion_tokens.getD 0
      total_tokens := self.total_tokens + token_usage.total_tokens.getD 0 }

/-- Folding `on_llm_end` over a sequence of completion events. -/
def runEvents (c : TokenCounterCallback) (events : List LLMResponse) :
    TokenCounterCallback :=
  events.foldl TokenCounterCallback.on_llm_end c

/-! ## search_news -/

/-- Python truthiness test `if not tavily_api_key` (line 34): the key is
"missing" when unset or the empty string. -/
def keyMissing : Option String → Bool
  | none => true
  | some s => s.isEmpty

/-- Python `sep.join(parts)`. -/
def joinSep (sep : String) : List String → String
  | [] => ""
  | [a] => a
  | a :: b :: t => a ++ sep ++ joinSep sep (b :: t)

/-- Formatting of one search result (line 51). -/
def formatResult (i : Nat) (r : SearchResult) : String :=
  let title := r.title.getD "Sem título"
  let content := r.content.getD "Sem conteúdo"
  let url := r.url.getD ""
  toString i ++ ". " ++ title ++ "\n   " ++ content ++ "\n   Fonte: " ++ url

/-- Formatting of the result list (lines 46-53): numbered from 1, joined by
blank lines. -/
def formatResults (results : List SearchResult) : String :=
  joinSep "\n\n" ((results.enumFrom 1).map fun p => formatResult p.1 p.2)

/-- `search_news` (lines 31-55).  The Search Collaborator is the parameter
`searchFn` (success: the result list; failure: the exception message).
Returns the result string together with the number of search API
invocations actually made (0 or 1). -/
def search_news (tavilyKey : Option String)
    (searchFn : String → Except String (List SearchResult))
    (query : String) : String × Nat :=
  if keyMissing tavilyKey then
    ("ERRO: TAVILY_API_KEY não encontrada no arquivo .env", 0)
  else
    match searchFn query with
    | .error e => ("ERRO ao buscar notícias: " ++ e, 1)
    | .ok results =>
      if results.isEmpty then
        ("Nenhuma notícia encontrada para este tópico.", 1)
      else
        (formatResults results, 1)

/-! ## analyze_sentiment -/

/-- The fixed sentiment prompt template (lines 58-67). -/
def sentimentPrompt (text : String) : String :=
  "Analise o sentimento do seguinte texto e classifique como POSITIVO ou NEGATIVO.\nForneça também uma justificativa curta (máximo 2 linhas) explicando o porquê da classificação.\n\nTexto: " ++ text ++ "\n\nResponda no seguinte formato:\nSentimento: [POSITIVO ou NEGATIVO]\nJustificativa: [explicação curta]\n\nResposta:"

/-- Result of one handler run: the returned string, the list of prompts sent
to the LLM (in order; counts LLM calls), and the counter state afterwards. -/
structure ASResult where
  output : String
  llmPrompts : List String
  counter : TokenCounterCallback
deriving DecidableEq

/-- `analyze_sentiment` (lines 57-74).  The LLM Collaborator is the
parameter `llm` (success: the response, whose callback fires `on_llm_end`;
failure: the exception message, caught and turned into an `ERRO` string). -/
def analyze_sentiment (text : String) (llm : String → Except String LLMResponse)
    (token_counter : TokenCounterCallback) : ASResult :=
  let prompt := sentimentPrompt text
  match llm prompt with
  | .ok response =>
    ⟨pyStrip response.content, [prompt], token_counter.on_llm_end response⟩
  | .error e =>
    ⟨"ERRO ao analisar sentimento: " ++ e, [prompt], token_counter⟩

/-! ## process_request -/

/-- The three handling paths. -/
inductive Intent
  | SentimentAnalysis
  | NewsSearch
  | GeneralQuery
deriving DecidableEq

/-- The dispatch conditions of `process_request` (lines 77, 79 and 91),
factored out: keyword substring tests on the lowercased input, evaluated in
the source's order. -/
def route (user_input : String) : Intent :=
  let user_lower := pyLower user_input
  if pyContains user_lower "analise" || pyContains user_lower "sentimento" ||
      pyContains user_lower "analisa" then
    .SentimentAnalysis
  else if pyContains user_lower "busque" || pyContains user_lower "buscar" ||
      pyContains user_lower "notícias" || pyContains user_lower "noticias" ||
      pyContains user_lower "procure" then
    .NewsSearch
  else
    .GeneralQuery

/-- The trigger phrases stripped on the sentiment path (line 81), in source
order. -/
def triggerWords : List String :=
  ["analise", "sentimento", "analisa", "o sentimento", "da notícia",
   "desta notícia", "do texto"]

/-- Lines 80-83: strip each trigger phrase (literal, case-sensitive,
applied to the original input), remove every `:`, then `strip()`. -/
def strip_triggers (user_input : String) : String :=
  let t := triggerWords.foldl (fun acc w => pyReplace acc w "") user_input
  pyStrip (pyReplace t ":" "")

/-- The fixed prompting-for-more-input message (line 86). -/
def promptingMessage : String :=
  "Por favor, forneça o texto da notícia para análise. Exemplo: 'Analise o sentimento: [texto da notícia]'"

/-- The summarization prompt template (lines 97-103). -/
def summaryPrompt (results : String) : String :=
  "Com base nos seguintes resultados de busca, crie um resumo MUITO CONCISO (máximo 3-5 tópicos curtos) das principais notícias:\n\nResultados: " ++ results ++ "\n\nIMPORTANTE: Seja extremamente breve, máximo 3-5 bullet points!\n\nResumo:"

/-- The news-sentiment prompt template (lines 109-118). -/
def newsSentimentPrompt (summary : String) : String :=
  "Analise o sentimento geral das seguintes notícias e classifique como POSITIVO ou NEGATIVO.\nForneça uma justificativa curta (máximo 1 linha).\n\nNotícias: " ++ summary ++ "\n\nResponda no formato:\nSentimento: [POSITIVO ou NEGATIVO]\nJustificativa: [explicação curta em 1 linha]\n\nResposta:"

/-- The general-query prompt template (lines 128-132). -/
def generalPrompt (user_input : String) : String :=
  "Você é um assistente de notícias. Responda à seguinte pergunta de forma breve:\n\n" ++ user_input ++ "\n\nResposta:"

/-- The 50-wide `=` separator (Python `'='*50`). -/
def sep50 : String := ⟨List.replicate 50 '='⟩

/-- Result of one `process_request` turn. -/
structure PRResult where
  output : String
  llmPrompts : List String
  searchCalls : Nat
  counter : TokenCounterCallback
deriving DecidableEq

/-- `process_request` (lines 76-138).  Dispatches on `route`; the news path
calls `search_news` and then (unless the result string starts with `ERRO`)
makes two LLM calls inside one `try`, whose failure is caught as
`ERRO ao processar resultados`. -/
def process_request (user_input : String)
    (llm : String → Except String LLMResponse)
    (token_counter : TokenCounterCallback)
    (tavilyKey : Option String)
    (searchFn : String → Except String (List SearchResult)) : PRResult :=
  match route user_input with
  | .SentimentAnalysis =>
    let text_to_analyze := strip_triggers user_input
    if text_to_analyze.length < 20 then
      ⟨promptingMessage, [], 0, token_counter⟩
    else
      let r := analyze_sentiment text_to_analyze llm token_counter
      ⟨r.output, r.llmPrompts, 0, r.counter⟩
  | .NewsSearch =>
    let sr := search_news tavilyKey searchFn user_input
    let results := sr.1
    if pyStartsWith results "ERRO" then
      ⟨results, [], sr.2, token_counter⟩
    else
      let prompt := summaryPrompt results
      match llm prompt with
      | .error e =>
        ⟨"ERRO ao processar resultados: " ++ e, [prompt], sr.2, token_counter⟩
      | .ok summary_response =>
        let tc1 := token_counter.on_llm_end summary_response
        let summary := summary_response.content
        let sprompt := newsSentimentPrompt summary
        match llm sprompt with
        | .error e =>
          ⟨"ERRO ao processar resultados: " ++ e, [prompt, sprompt], sr.2, tc1⟩
        | .ok sentiment_response =>
          let sentiment := pyStrip sentiment_response.content
          ⟨summary ++ "\n\n" ++ sep50 ++ "\nANÁLISE DE SENTIMENTO\n" ++ sep50 ++
              "\n" ++ sentiment,
            [prompt, sprompt], sr.2, tc1.on_llm_end sentiment_response⟩
  | .GeneralQuery =>
    let prompt := generalPrompt user_input
    match llm prompt with
    | .ok response =>
      ⟨response.content, [prompt], 0, token_counter.on_llm_end response⟩
    | .error e =>
      ⟨"ERRO: " ++ e, [prompt], 0, token_counter⟩

/-! ## Spec-side router and auxiliary definitions for the properties -/

/-- The spec's sentiment keyword set. -/
def sentimentKeywords : List String := ["analise", "analisa", "sentimento"]

/-- The spec's news keyword set. -/
def newsKeywords : List String := ["busque", "buscar", "notícias", "noticias", "procure"]

/-- Router stated from the spec's words (case-insensitive substring match
against fixed keyword sets, first matching rule wins, fixed priority
order), to be compared with the code-derived `route`. -/
def routeSpec (input : String) : Intent :=
  if sentimentKeywords.any (fun k => pyContains (pyLower input) k) then
    .SentimentAnalysis
  else if newsKeywords.any (fun k => pyContains (pyLower input) k) then
    .NewsSearch
  else
    .GeneralQuery

/-- All token counts reported by a completion event are non-negative
(vacuously true when the metadata is absent). -/
def reportedNonneg (r : LLMResponse) : Bool :=
  match r.llm_output with
  | none => true
  | some out =>
    match out.token_usage with
    | none => true
    | some tu =>
      decide (0 ≤ tu.prompt_tokens.getD 0) && decide (0 ≤ tu.completion_tokens.getD 0) &&
        decide (0 ≤ tu.total_tokens.getD 0)

/-- A completion event reporting full usage metadata `(p, c, t)`. -/
def reportResp (p c t : Int) : LLMResponse := ⟨"", some ⟨some ⟨some p, some c, some t⟩⟩⟩

/-- A deterministic LLM stub used for concrete runs. -/
def stubLLM : String → Except String LLMResponse :=
  fun _ => .ok ⟨"RESUMO", some ⟨some ⟨some 1, some 2, some 3⟩⟩⟩

/-- A search stub returning an empty result list. -/
def stubSearch : String → Except String (List SearchResult) :=
  fun _ => .ok []

/-! ## Helper lemmas -/

lemma isPrefixOf_self_append (l t : List Char) : l.isPrefixOf (l ++ t) = true := by
  induction l with
  | nil => simp [List.isPrefixOf]
  | cons a as ih => simp [List.isPrefixOf, ih]

lemma pyStartsWith_self_append (p t : String) : pyStartsWith (p ++ t) p = true := by
  unfold pyStartsWith
  rw [String.data_append]
  exact isPrefixOf_self_append p.data t.data

lemma erro_buscar_startsWith (e : String) :
    pyStartsWith ("ERRO ao buscar notícias: " ++ e) "ERRO" = true := by
  have h : ("ERRO" : String) ++ " ao buscar notícias: " = "ERRO ao buscar notícias: " := rfl
  rw [← h, String.append_assoc]
  exact pyStartsWith_self_append _ _

lemma erro_processar_startsWith (e : String) :
    pyStartsWith ("ERRO ao processar resultados: " ++ e) "ERRO" = true := by
  have h : ("ERRO" : String) ++ " ao processar resultados: " = "ERRO ao processar resultados: " := rfl
  rw [← h, String.append_assoc]
  exact pyStartsWith_self_append _ _

lemma formatResult_one_not_erro (r : SearchResult) (t : String) :
    pyStartsWith (formatResult 1 r ++ t) "ERRO" = false := by
  unfold pyStartsWith formatResult
  simp only [String.data_append]
  have h1 : (toString (1 : Nat)).data = ['1'] := rfl
  rw [h1]
  rfl

lemma joinSep_cons_append (sep a : String) (xs : List String) :
    ∃ t : String, joinSep sep (a :: xs) = a ++ t := by
  cases xs with
  | nil => exact ⟨"", (String.append_empty a).symm⟩
  | cons b bs => exact ⟨sep ++ joinSep sep (b :: bs), by rw [joinSep, String.append_assoc]⟩

lemma formatResults_not_erro (r : SearchResult) (rs : List SearchResult) :
    pyStartsWith (formatResults (r :: rs)) "ERRO" = false := by
  have h : formatResults (r :: rs) =
      joinSep "\n\n" (formatResult 1 r ::
        (List.enumFrom 2 rs).map fun p => formatResult p.1 p.2) := rfl
  obtain ⟨t, ht⟩ := joinSep_cons_append "\n\n" (formatResult 1 r)
    ((List.enumFrom 2 rs).map fun p => formatResult p.1 p.2)
  rw [h, ht]
  exact formatResult_one_not_erro r t

/-! ## Claim theorems -/

/-- C2: for every input string, the router selects the intent by
case-insensitive substring match in fixed priority order — the sentiment
keyword set first, then the news keyword set, else GeneralQuery — i.e. the
code-derived `route` coincides with the spec-described `routeSpec`. -/
theorem route_eq_routeSpec (s : String) : route s = routeSpec s := by
  unfold route routeSpec
  simp only [sentimentKeywords, newsKeywords, List.any_cons, List.any_nil, Bool.or_false]
  cases pyContains (pyLower s) "analise" <;>
    cases pyContains (pyLower s) "sentimento" <;>
      cases pyContains (pyLower s) "analisa" <;>
        simp [Bool.or_assoc]

/-- C9: calling the sentiment handler twice with identical input text and a
deterministic LLM collaborator yields identical output text (the output does
not depend on the accumulated counter state, which is all that differs
between the two runs). -/
theorem analyze_sentiment_deterministic (text : String)
    (llm : String → Except String LLMResponse) (c1 c2 : TokenCounterCallback) :
    (analyze_sentiment text llm c1).output = (analyze_sentiment text llm c2).output := by
  unfold analyze_sentiment
  cases h : llm (sentimentPrompt text) <;> simp [h]

/-- C4: on the sentiment path, when the text remaining after stripping the
trigger phrases is shorter than 20 characters, the handler returns the fixed
prompting message, makes zero LLM calls, performs no search and leaves the
counter untouched. -/
theorem sentiment_short_input_prompting (input : String)
    (llm : String → Except String LLMResponse) (c : TokenCounterCallback)
    (key : Option String) (searchFn : String → Except String (List SearchResult))
    (hroute : route input = .SentimentAnalysis)
    (hlen : (strip_triggers input).length < 20) :
    process_request input llm c key searchFn = ⟨promptingMessage, [], 0, c⟩ := by
  unfold process_request
  rw [hroute]
  simp only [if_pos hlen]

/-- Witness for C4 at the concrete input "analise o sentimento". -/
theorem sentiment_short_input_prompting_witness :
    process_request "analise o sentimento" stubLLM .init (some "chave") stubSearch =
      ⟨promptingMessage, [], 0, .init⟩ :=
  sentiment_short_input_prompting "analise o sentimento" stubLLM .init (some "chave")
    stubSearch (by decide) (by decide)

/-- C7: on the news path, when the search credential is absent (unset or
empty), the handler returns the fixed configuration-error string, the search
collaborator is never invoked, zero LLM calls are made and the counter is
untouched. -/
theorem news_missing_key_config_error (input : String)
    (llm : String → Except String LLMResponse) (c : TokenCounterCallback)
    (key : Option String) (searchFn : String → Except String (List SearchResult))
    (hroute : route input = .NewsSearch)
    (hkey : keyMissing key = true) :
    process_request input llm c key searchFn =
      ⟨"ERRO: TAVILY_API_KEY não encontrada no arquivo .env", [], 0, c⟩ := by
  unfold process_request
  rw [hroute]
  unfold search_news
  rw [hkey]
  have h : pyStartsWith "ERRO: TAVILY_API_KEY não encontrada no arquivo .env" "ERRO" = true := by
    decide
  simp [h]

/-- Witness for C7 at the concrete input "Busque notícias sobre economia"
with the credential unset. -/
theorem news_missing_key_config_error_witness :
    process_request "Busque notícias sobre economia" stubLLM .init none stubSearch =
      ⟨"ERRO: TAVILY_API_KEY não encontrada no arquivo .env", [], 0, .init⟩ :=
  news_missing_key_config_error "Busque notícias sobre economia" stubLLM .init none
    stubSearch (by decide) (by decide)

lemma runEvents_nil (c : TokenCounterCallback) : runEvents c [] = c := rfl

lemma runEvents_cons (c : TokenCounterCallback) (r : LLMResponse) (rs : List LLMResponse) :
    runEvents c (r :: rs) = runEvents (c.on_llm_end r) rs := rfl

lemma on_llm_end_step (c : TokenCounterCallback) (r : LLMResponse)
    (h : reportedNonneg r = true) :
    c.prompt_tokens ≤ (c.on_llm_end r).prompt_tokens ∧
    c.completion_tokens ≤ (c.on_llm_end r).completion_tokens ∧
    c.total_tokens ≤ (c.on_llm_end r).total_tokens := by
  obtain ⟨content, ro⟩ := r
  cases ro with
  | none => simp [TokenCounterCallback.on_llm_end]
  | some out =>
    obtain ⟨tus⟩ := out
    cases tus with
    | none => simp [TokenCounterCallback.on_llm_end]
    | some tu =>
      obtain ⟨p, q, t⟩ := tu
      simp only [reportedNonneg, Bool.and_eq_true, decide_eq_true_eq] at h
      obtain ⟨⟨hp, hq⟩, ht⟩ := h
      simp only [TokenCounterCallback.on_llm_end, Option.getD_some]
      exact ⟨by omega, by omega, by omega⟩

/-- C5: for every sequence of completion events whose reported token counts
are non-negative, each counter field is monotonically non-decreasing: every
`on_llm_end` call leaves each field greater than or equal to its previous
value, and hence over any whole event sequence the fields never decrease. -/
theorem token_counter_monotone :
    (∀ (c : TokenCounterCallback) (r : LLMResponse), reportedNonneg r = true →
      c.prompt_tokens ≤ (c.on_llm_end r).prompt_tokens ∧
      c.completion_tokens ≤ (c.on_llm_end r).completion_tokens ∧
      c.total_tokens ≤ (c.on_llm_end r).total_tokens) ∧
    (∀ (c : TokenCounterCallback) (events : List LLMResponse),
      (∀ r ∈ events, reportedNonneg r = true) →
      c.prompt_tokens ≤ (runEvents c events).prompt_tokens ∧
      c.completion_tokens ≤ (runEvents c events).completion_tokens ∧
      c.total_tokens ≤ (runEvents c events).total_tokens) := by
  refine ⟨on_llm_end_step, ?_⟩
  intro c events h
  induction events generalizing c with
  | nil => simp [runEvents_nil]
  | cons r rs ih =>
    have h1 := on_llm_end_step c r (h r (by simp))
    have h2 := ih (c.on_llm_end r) (fun x hx => h x (by simp [hx]))
    rw [runEvents_cons]
    exact ⟨le_trans h1.1 h2.1, le_trans h1.2.1 h2.2.1, le_trans h1.2.2 h2.2.2⟩

/-- Witness for C5 on concrete events. -/
theorem token_counter_monotone_witness :
    TokenCounterCallback.init.prompt_tokens ≤
      (TokenCounterCallback.init.on_llm_end (reportResp 5 7 12)).prompt_tokens ∧
    TokenCounterCallback.init.total_tokens ≤
      (runEvents .init [reportResp 5 7 12, reportResp 1 2 3]).total_tokens :=
  ⟨(token_counter_monotone.1 .init (reportResp 5 7 12) (by decide)).1,
   (token_counter_monotone.2 .init [reportResp 5 7 12, reportResp 1 2 3]
      (by intro r hr; simp at hr; rcases hr with rfl | rfl <;> decide)).2.2⟩

lemma runEvents_reportResp (us : List (Int × Int × Int)) (c : TokenCounterCallback) :
    runEvents c (us.map fun u => reportResp u.1 u.2.1 u.2.2) =
      ⟨c.total_tokens + (us.map fun u => u.2.2).sum,
       c.prompt_tokens + (us.map fun u => u.1).sum,
       c.completion_tokens + (us.map fun u => u.2.1).sum⟩ := by
  induction us generalizing c with
  | nil => simp [runEvents_nil]
  | cons u t ih =>
    rw [List.map_cons, runEvents_cons, ih]
    simp only [TokenCounterCallback.on_llm_end, reportResp, Option.getD_some, List.map_cons,
      List.sum_cons, TokenCounterCallback.mk.injEq]
    refine ⟨by ring, by ring, by ring⟩

/-- C6: after N completion events each reporting usage `(p_i, c_i, t_i)`,
the accumulator holds exactly the sums of the reported counts; after zero
events all three fields are zero. -/
theorem token_counter_sums (us : List (Int × Int × Int)) :
    (runEvents .init (us.map fun u => reportResp u.1 u.2.1 u.2.2)).prompt_tokens =
        (us.map fun u => u.1).sum ∧
    (runEvents .init (us.map fun u => reportResp u.1 u.2.1 u.2.2)).completion_tokens =
        (us.map fun u => u.2.1).sum ∧
    (runEvents .init (us.map fun u => reportResp u.1 u.2.1 u.2.2)).total_tokens =
        (us.map fun u => u.2.2).sum ∧
    runEvents .init ([] : List LLMResponse) = ⟨0, 0, 0⟩ := by
  rw [runEvents_reportResp us .init]
  refine ⟨by simp [TokenCounterCallback.init], by simp [TokenCounterCallback.init],
    by simp [TokenCounterCallback.init], rfl⟩

/-- C8: a completion event carrying no usage metadata — missing or empty
`llm_output`, missing `token_usage`, or missing individual fields — is a
no-op on the corresponding accumulator fields (adds zero), and the embedding
is total, modelling that the call does not raise. -/
theorem on_llm_end_no_metadata_noop (c : TokenCounterCallback) (r : LLMResponse) :
    (r.llm_output = none → c.on_llm_end r = c) ∧
    (∀ out, r.llm_output = some out → out.token_usage = none → c.on_llm_end r = c) ∧
    (∀ out tu, r.llm_output = some out → out.token_usage = some tu →
      (tu.prompt_tokens = none → (c.on_llm_end r).prompt_tokens = c.prompt_tokens) ∧
      (tu.completion_tokens = none →
        (c.on_llm_end r).completion_tokens = c.completion_tokens) ∧
      (tu.total_tokens = none → (c.on_llm_end r).total_tokens = c.total_tokens)) := by
  refine ⟨?_, ?_, ?_⟩
  · intro h
    simp [TokenCounterCallback.on_llm_end, h]
  · intro out h1 h2
    simp [TokenCounterCallback.on_llm_end, h1, h2]
  · intro out tu h1 h2
    refine ⟨?_, ?_, ?_⟩ <;> intro h3 <;>
      simp [TokenCounterCallback.on_llm_end, h1, h2, h3]

/-- Witness for C8 on concrete metadata-free events. -/
theorem on_llm_end_no_metadata_noop_witness :
    TokenCounterCallback.on_llm_end ⟨1, 2, 3⟩ ⟨"x", none⟩ = ⟨1, 2, 3⟩ ∧
    TokenCounterCallback.on_llm_end ⟨1, 2, 3⟩ ⟨"x", some ⟨none⟩⟩ = ⟨1, 2, 3⟩ ∧
    (TokenCounterCallback.on_llm_end ⟨1, 2, 3⟩
      ⟨"x", some ⟨some ⟨none, some 5, none⟩⟩⟩).total_tokens = 1 :=
  ⟨(on_llm_end_no_metadata_noop ⟨1, 2, 3⟩ ⟨"x", none⟩).1 rfl,
   (on_llm_end_no_metadata_noop ⟨1, 2, 3⟩ ⟨"x", some ⟨none⟩⟩).2.1 ⟨none⟩ rfl rfl,
   ((on_llm_end_no_metadata_noop ⟨1, 2, 3⟩ ⟨"x", some ⟨some ⟨none, some 5, none⟩⟩⟩).2.2
      ⟨some ⟨none, some 5, none⟩⟩ ⟨none, some 5, none⟩ rfl rfl).2.2 rfl⟩

/-- C3: on the news path (credential present), a failure at any API call —
the search call, the summarization LLM call, or the sentiment LLM call —
makes the handler return exactly the `ERRO`-prefixed string of the failing
step, with no partial output (no search results and no already-computed
summary) in the returned string. -/
theorem news_pipeline_failure_erro (input e : String)
    (llm : String → Except String LLMResponse) (c : TokenCounterCallback)
    (key : Option String) (searchFn : String → Except String (List SearchResult))
    (hroute : route input = .NewsSearch)
    (hkey : keyMissing key = false) :
    (searchFn input = .error e →
      process_request input llm c key searchFn =
        ⟨"ERRO ao buscar notícias: " ++ e, [], 1, c⟩ ∧
      pyStartsWith (process_request input llm c key searchFn).output "ERRO" = true) ∧
    (∀ results, searchFn input = .ok results → results ≠ [] →
      llm (summaryPrompt (formatResults results)) = .error e →
      process_request input llm c key searchFn =
        ⟨"ERRO ao processar resultados: " ++ e, [summaryPrompt (formatResults results)], 1, c⟩ ∧
      pyStartsWith (process_request input llm c key searchFn).output "ERRO" = true) ∧
    (∀ results resp, searchFn input = .ok results → results ≠ [] →
      llm (summaryPrompt (formatResults results)) = .ok resp →
      llm (newsSentimentPrompt resp.content) = .error e →
      process_request input llm c key searchFn =
        ⟨"ERRO ao processar resultados: " ++ e,
          [summaryPrompt (formatResults results), newsSentimentPrompt resp.content], 1,
          c.on_llm_end resp⟩ ∧
      pyStartsWith (process_request input llm c key searchFn).output "ERRO" = true) := by
  refine ⟨?_, ?_, ?_⟩
  · intro hs
    have hout : process_request input llm c key searchFn =
        ⟨"ERRO ao buscar notícias: " ++ e, [], 1, c⟩ := by
      unfold process_request
      rw [hroute]
      unfold search_news
      rw [hkey, hs]
      simp [erro_buscar_startsWith e]
    exact ⟨hout, by rw [hout]; exact erro_buscar_startsWith e⟩
  · intro results hs hne hllm
    cases results with
    | nil => exact absurd rfl hne
    | cons r0 rs0 =>
      have hout : process_request input llm c key searchFn =
          ⟨"ERRO ao processar resultados: " ++ e,
            [summaryPrompt (formatResults (r0 :: rs0))], 1, c⟩ := by
        unfold process_request
        rw [hroute]
        unfold search_news
        rw [hkey, hs]
        simp [formatResults_not_erro r0 rs0, hllm]
      exact ⟨hout, by rw [hout]; exact erro_processar_startsWith e⟩
  · intro results resp hs hne hllm1 hllm2
    cases results with
    | nil => exact absurd rfl hne
    | cons r0 rs0 =>
      have hout : process_request input llm c key searchFn =
          ⟨"ERRO ao processar resultados: " ++ e,
            [summaryPrompt (formatResults (r0 :: rs0)), newsSentimentPrompt resp.content], 1,
            c.on_llm_end resp⟩ := by
        unfold process_request
        rw [hroute]
        unfold search_news
        rw [hkey, hs]
        simp [formatResults_not_erro r0 rs0, hllm1, hllm2]
      exact ⟨hout, by rw [hout]; exact erro_processar_startsWith e⟩

/-- Witness for C3: a concrete failing search call yields exactly the
`ERRO` string of the failing step. -/
theorem news_pipeline_failure_erro_witness :
    process_request "Busque notícias sobre economia" stubLLM .init (some "chave")
        (fun _ => .error "timeout") =
      ⟨"ERRO ao buscar notícias: " ++ "timeout", [], 1, .init⟩ ∧
    pyStartsWith (process_request "Busque notícias sobre economia" stubLLM .init (some "chave")
        (fun _ => .error "timeout")).output "ERRO" = true :=
  (news_pipeline_failure_erro "Busque notícias sobre economia" "timeout" stubLLM .init
    (some "chave") (fun _ => .error "timeout") (by decide) (by decide)).1 rfl

set_option maxRecDepth 20000 in
/-- C1 (failing): with the search credential present and a search returning
an empty result list on input "Busque notícias sobre economia", the handler
does NOT return "Nenhuma notícia encontrada para este tópico.": that message
does not start with `ERRO`, so `process_request` embeds it in the
summarization prompt and makes two LLM calls, returning summary + sentiment
block instead. -/
theorem news_empty_results_feeds_llm :
    (process_request "Busque notícias sobre economia" stubLLM .init (some "chave")
        stubSearch).output ≠ "Nenhuma notícia encontrada para este tópico." ∧
    (process_request "Busque notícias sobre economia" stubLLM .init (some "chave")
        stubSearch).llmPrompts.length = 2 ∧
    pyContains ((process_request "Busque notícias sobre economia" stubLLM .init (some "chave")
        stubSearch).llmPrompts.headD "") "Nenhuma notícia encontrada para este tópico." = true ∧
    (process_request "Busque notícias sobre economia" stubLLM .init (some "chave")
        stubSearch).output =
      "RESUMO\n\n" ++ sep50 ++ "\nANÁLISE DE SENTIMENTO\n" ++ sep50 ++ "\nRESUMO" := by
  refine ⟨by decide, rfl, by decide, by decide⟩

set_option maxRecDepth 20000 in
/-- C10: trigger-phrase stripping on the sentiment path is literal
case-sensitive replacement on the original input plus `:` removal: a
lowercase trigger embedded inside a longer word is removed; uppercase
occurrences are not removed even though routing matched them
case-insensitively, and their characters count toward the 20-character
threshold, so the LLM is called with the trigger word still in the text. -/
theorem strip_triggers_case_sensitive :
    strip_triggers "analisemos a situação economica agora" = "mos a situação economica agora" ∧
    strip_triggers "Analise o sentimento: a economia vai bem" = "Analise o  a economia vai bem" ∧
    strip_triggers "ANALISE ESTE TEXTO AGORA SIM" = "ANALISE ESTE TEXTO AGORA SIM" ∧
    route "ANALISE ESTE TEXTO AGORA SIM" = .SentimentAnalysis ∧
    (strip_triggers "ANALISE ESTE TEXTO AGORA SIM").length = 28 ∧
    (process_request "ANALISE ESTE TEXTO AGORA SIM" stubLLM .init (some "chave")
        stubSearch).llmPrompts = [sentimentPrompt "ANALISE ESTE TEXTO AGORA SIM"] ∧
    pyContains (sentimentPrompt "ANALISE ESTE TEXTO AGORA SIM") "ANALISE" = true := by
  decide

end NewsAgent
